import Mathlib

/-
Verification of the Floppy Bird simulation core (src/script.js).

Modelling conventions:
* JavaScript numbers are modelled as exact rationals (ℚ).  Every arithmetic
  operation the simulation core performs (addition, multiplication, division
  by the fixed constant 1000, Math.floor, Math.round, Math.min, Math.max,
  comparisons) is exact on the inputs that occur, so the rational model is
  a faithful shallow embedding of the source.
* Angles are stored in units of pi: the source constant MAX_ROT = pi/6 is
  represented by the rational 1/6, and MIN_ROT = -pi/2.6 = -5*pi/13 by
  -5/13.  This is exact because every angle the program computes is a
  rational combination of these two constants, and pi is positive, so all
  order facts transfer verbatim between the two representations.
* Math.random() is modelled by an explicit parameter u with 0 ≤ u < 1.
* The DOM / rendering / audio side effects are out of scope; the emitted
  end-of-session result (final score, is-new-best flag shown by endTitle)
  is modelled by the function endGame below.
-/

namespace Floppy

/-- GRAVITY constant of the source (px/s^2). -/
def GRAVITY : ℚ := 1100

/-- FLAP_VY constant of the source: vertical velocity set by a flap. -/
def FLAP_VY : ℚ := -350

/-- PIPE_GAP constant of the source: vertical gap between pipe segments. -/
def PIPE_GAP : ℚ := 140

/-- PIPE_W constant of the source: pipe width. -/
def PIPE_W : ℚ := 60

/-- PIPE_INTERVAL constant of the source (ms). -/
def PIPE_INTERVAL : ℚ := 1400

/-- PIPE_SPEED constant of the source (px/s). -/
def PIPE_SPEED : ℚ := 180

/-- BIRD_X constant of the source: fixed horizontal bird position. -/
def BIRD_X : ℚ := 120

/-- MAX_ROT constant of the source, in units of pi (source: Math.PI / 6). -/
def MAX_ROT : ℚ := 1/6

/-- MIN_ROT constant of the source, in units of pi (source: -Math.PI / 2.6 = -5*pi/13). -/
def MIN_ROT : ℚ := -5/13

/-- The bird record created in reset(): position (x fixed, y free), vertical
velocity, radius, orientation angle (units of pi) and alive flag. -/
structure Bird where
  x : ℚ
  y : ℚ
  vy : ℚ
  radius : ℚ
  rot : ℚ
  alive : Bool
  deriving DecidableEq, Repr

/-- A pipe record as produced by spawnPipe(): horizontal position, gap-top
offset, gap-bottom offset and the scoring flag. -/
structure Pipe where
  x : ℚ
  top : ℚ
  bottom : ℚ
  passed : Bool
  deriving DecidableEq, Repr

/-- groundHeight() of the source: Math.max(34, Math.round(clientHeight * 0.12)).
JavaScript Math.round is floor(x + 1/2). -/
def groundHeight (h : ℚ) : ℚ :=
  max 34 ((⌊h * (12/100) + 1/2⌋ : ℤ) : ℚ)

/-- The gap-top offset chosen by spawnPipe(): minTop = 48,
maxTop = height - PIPE_GAP - 120, top = floor(u * (maxTop - minTop + 1)) + minTop,
with u the Math.random() draw. -/
def pipeTop (h u : ℚ) : ℚ :=
  ((⌊u * ((h - PIPE_GAP - 120) - 48 + 1)⌋ : ℤ) : ℚ) + 48

/-- spawnPipe() of the source: the pipe pushed onto the list. -/
def mkPipe (w h u : ℚ) : Pipe :=
  { x := w + 20, top := pipeTop h u, bottom := pipeTop h u + PIPE_GAP, passed := false }

/-- collidePipe() of the source: horizontal-band test followed by the two
vertical gap tests. -/
def collidePipe (bx cy r : ℚ) (p : Pipe) : Bool :=
  let inX := decide (bx + r > p.x) && decide (bx - r < p.x + PIPE_W)
  if !inX then false
  else if cy - r < p.top then true
  else if cy + r > p.bottom then true
  else false

/-- map(v, a, b, A, B) of the source. -/
def rmap (v a b A B : ℚ) : ℚ := A + (v - a) * (B - A) / (b - a)

/-- clamp(v, a, b) of the source: Math.max(a, Math.min(b, v)). -/
def rclamp (v a b : ℚ) : ℚ := max a (min b v)

/-- The bird-physics part of one tick (source lines 194-199): gravity
integration followed by rotation smoothing toward the clamped target. -/
def integrate (b : Bird) (dt : ℚ) : Bird :=
  let vy1 := b.vy + GRAVITY * dt
  let y1 := b.y + vy1 * dt
  let target := rclamp (rmap vy1 (-400) 600 MAX_ROT MIN_ROT) MIN_ROT MAX_ROT
  let rot1 := b.rot + (target - b.rot) * min 1 (dt * 8)
  { b with vy := vy1, y := y1, rot := rot1 }

/-- The spawn-timer part of one tick (source lines 202-206): advance the
timer by dt*1000; when it reaches PIPE_INTERVAL, reset it and append a pipe. -/
def spawnStep (timer : ℚ) (ps : List Pipe) (w h dt u : ℚ) : ℚ × List Pipe :=
  let t1 := timer + dt * 1000
  if t1 ≥ PIPE_INTERVAL then (0, ps ++ [mkPipe w h u]) else (t1, ps)

/-- The pipe loop of one tick (source lines 209-221): every pipe is moved
left by PIPE_SPEED*dt, an unpassed pipe whose trailing edge crossed the
bird position is marked passed and scores one point, and a pipe fully off
screen is removed.  The backward index loop with splice is equivalent to
this order-preserving independent traversal. -/
def stepPipes (bx dt : ℚ) : List Pipe → List Pipe × ℕ
  | [] => ([], 0)
  | p :: rest =>
    let x1 := p.x - PIPE_SPEED * dt
    let hit := !p.passed && decide (x1 + PIPE_W < bx)
    let p2 : Pipe := { x := x1, top := p.top, bottom := p.bottom, passed := p.passed || hit }
    let inc : ℕ := if hit then 1 else 0
    let r := stepPipes bx dt rest
    (if x1 + PIPE_W < -40 then r.1 else p2 :: r.1, inc + r.2)

/-- Ground-collision check of one tick (source lines 224-226). -/
def groundStep (h : ℚ) (b : Bird) : Bird :=
  if b.y + b.radius > h - groundHeight h then { b with alive := false } else b

/-- Ceiling clamp of one tick (source lines 227-230). -/
def ceilStep (b : Bird) : Bird :=
  if b.y - b.radius < 0 then { b with y := b.radius, vy := 0 } else b

/-- Pipe-collision loop of one tick (source lines 232-237). -/
def pipeCollStep (ps : List Pipe) (b : Bird) : Bird :=
  if ps.any (fun p => collidePipe b.x b.y b.radius p) then { b with alive := false } else b

/-- endGame() of the source (lines 256-266), restricted to its state effect
and the emitted result: the best record is updated first (lines 259-263),
and the is-new-best indicator shown by endTitle is the comparison
score > best evaluated afterwards (line 266). -/
def endGame (score best : ℕ) : ℕ × Bool :=
  let b1 := if score > best then score else best
  (b1, decide (score > b1))

/-- The full session state: bird, pipe list, spawn timer (ms), running flag,
score, process-wide best record, and the playfield geometry cached by
reset(). -/
structure State where
  bird : Bird
  pipes : List Pipe
  spawnTimer : ℚ
  running : Bool
  score : ℕ
  best : ℕ
  width : ℚ
  height : ℚ
  deriving DecidableEq, Repr

/-- The spawn-step result inside tick, as a function of the state. -/
def tickSpawned (s : State) (dt u : ℚ) : ℚ × List Pipe :=
  spawnStep s.spawnTimer s.pipes s.width s.height dt u

/-- The moved / scored / filtered pipe list and the score increment inside
tick, as a function of the state. -/
def tickMoved (s : State) (dt u : ℚ) : List Pipe × ℕ :=
  stepPipes s.bird.x dt (tickSpawned s dt u).2

/-- The bird after integration, ground check and ceiling clamp inside tick. -/
def tickBird3 (s : State) (dt : ℚ) : Bird :=
  ceilStep (groundStep s.height (integrate s.bird dt))

/-- One simulation tick: the update block of loop() (source lines 192-244).
The block runs only while running and alive; on a death condition endGame
freezes the session (running := false) and updates the best record. -/
def tick (s : State) (dt u : ℚ) : State :=
  if s.running && s.bird.alive then
    let b4 := pipeCollStep (tickMoved s dt u).1 (tickBird3 s dt)
    let score1 := s.score + (tickMoved s dt u).2
    if b4.alive then
      { s with bird := b4, pipes := (tickMoved s dt u).1,
               spawnTimer := (tickSpawned s dt u).1, score := score1 }
    else
      { s with bird := b4, pipes := (tickMoved s dt u).1,
               spawnTimer := (tickSpawned s dt u).1, score := score1,
               running := false, best := (endGame score1 s.best).1 }
  else s

/-- doFlap() of the source (lines 110-121): a flap while not running first
sets the running flag; then, if the bird is alive, the flap impulse and
nose-up rotation are applied. -/
def doFlap (s : State) : State :=
  let s1 := if s.running then s else { s with running := true }
  if s1.bird.alive then
    { s1 with bird := { s1.bird with vy := FLAP_VY, rot := MAX_ROT } }
  else s1

/-- reset() of the source (lines 73-93) with the process-wide best record b:
fresh bird at mid-height, empty pipe list, zero timer and score, not running. -/
def initState (w h : ℚ) (b : ℕ) : State :=
  { bird := { x := BIRD_X, y := ((⌊h / 2⌋ : ℤ) : ℚ), vy := 0, radius := 18,
              rot := 0, alive := true },
    pipes := [], spawnTimer := 0, running := false, score := 0, best := b,
    width := w, height := h }

/-- The retry button: reset() keeps the process-wide best record. -/
def resetSession (s : State) (w h : ℚ) : State := initState w h s.best

/-- window.FLOPPY.start (source line 421): force the session to running. -/
def startGame (s : State) : State := { s with running := true }

/-- The READY button handler (source lines 149-155): sets running to false
and starts the ambient animation loop. -/
def readyGame (s : State) : State := { s with running := false }

/-- The session states reachable through the source's entry points: a fresh
reset at any geometry with any loaded best record, flaps, ticks with a
clamped delta (dt = min(0.035, elapsed/1000), so 0 ≤ dt ≤ 7/200) and a
Math.random() draw u ∈ [0,1), the start and ready buttons, and retry. -/
inductive Reachable : State → Prop where
  | init : ∀ (w h : ℚ) (b : ℕ), Reachable (initState w h b)
  | flap : ∀ s, Reachable s → Reachable (doFlap s)
  | step : ∀ s (dt u : ℚ), Reachable s → 0 ≤ dt → dt ≤ 7/200 → 0 ≤ u → u < 1 →
      Reachable (tick s dt u)
  | start : ∀ s, Reachable s → Reachable (startGame s)
  | ready : ∀ s, Reachable s → Reachable (readyGame s)
  | retry : ∀ s (w h : ℚ), Reachable s → Reachable (resetSession s w h)

/-- Claim C1, code evaluation: the is-new-best indicator emitted by endGame
(the endTitle comparison) is computed after the best record has already been
raised to the final score, so it is false for every final score and every
prior best — in particular when the final score strictly exceeds the prior
best, where the claim (and the spec) require it to be true. -/
theorem c1_isNewBest_never_emitted : ∀ (score best : ℕ), (endGame score best).2 = false := by
  intro score best
  simp only [endGame]
  split
  · simp
  · next h => simpa using h

/-- A concrete Ended-phase state (running flag cleared, bird dead) used to
refute claim C2 as stated. -/
def endedS : State :=
  { bird := { x := 120, y := 430, vy := 200, radius := 18, rot := 0, alive := false },
    pipes := [], spawnTimer := 100, running := false, score := 2, best := 5,
    width := 300, height := 480 }

/-- Claim C2, counterexample: a flap while the session is Ended does change
the session state — the source sets the running flag to true before it
checks the alive flag, so the state is not unchanged. -/
theorem c2_cex : doFlap endedS ≠ endedS := by
  intro h
  have h2 : (doFlap endedS).running = endedS.running := by rw [h]
  norm_num [doFlap, endedS] at h2

/-- Claim C2, amended: calling flap() while the session is Ended (running
flag false, bird dead) leaves the body, the obstacle sequence, the spawn
timer, the score and the best record unchanged, but sets the running flag
to true; no physics ever run because the bird stays dead. -/
theorem c2_flap_while_ended (s : State) (hr : s.running = false) (ha : s.bird.alive = false) :
    (doFlap s).bird = s.bird ∧ (doFlap s).pipes = s.pipes ∧
    (doFlap s).spawnTimer = s.spawnTimer ∧ (doFlap s).score = s.score ∧
    (doFlap s).best = s.best ∧ (doFlap s).width = s.width ∧
    (doFlap s).height = s.height ∧ (doFlap s).running = true := by
  simp [doFlap, hr, ha]

/-- Claim C2, witness: the amended statement evaluated on the concrete
Ended-phase state endedS. -/
theorem c2_flap_while_ended_witness :
    (doFlap endedS).bird = endedS.bird ∧ (doFlap endedS).pipes = endedS.pipes ∧
    (doFlap endedS).spawnTimer = endedS.spawnTimer ∧ (doFlap endedS).score = endedS.score ∧
    (doFlap endedS).best = endedS.best ∧ (doFlap endedS).width = endedS.width ∧
    (doFlap endedS).height = endedS.height ∧ (doFlap endedS).running = true :=
  c2_flap_while_ended endedS rfl rfl

/-- Claim C8: the obstacle-collision predicate returns true iff the body's
horizontal extent strictly overlaps the pipe's band and the body pokes above
the gap top or below the gap bottom; the two fixtures of the spec evaluate
as stated (body.y = 170 inside the gap gives false, body.y = 90 gives true). -/
theorem c8_collidePipe_spec :
    (∀ (bx cy r : ℚ) (p : Pipe), collidePipe bx cy r p = true ↔
      ((bx + r > p.x ∧ bx - r < p.x + PIPE_W) ∧ (cy - r < p.top ∨ cy + r > p.bottom)))
    ∧ collidePipe 120 170 18 ⟨120, 100, 240, false⟩ = false
    ∧ collidePipe 120 90 18 ⟨120, 100, 240, false⟩ = true := by
  refine ⟨fun bx cy r p => ?_, by norm_num [collidePipe, PIPE_W], by norm_num [collidePipe, PIPE_W]⟩
  by_cases hA : bx + r > p.x <;> by_cases hB : bx - r < p.x + PIPE_W <;>
    by_cases hC : cy - r < p.top <;> by_cases hD : cy + r > p.bottom <;>
    simp [collidePipe, hA, hB, hC, hD]

/-- Moving one pipe left by PIPE_SPEED*dt (claim-side formulation). -/
def movePipe (dt : ℚ) (p : Pipe) : Pipe := { p with x := p.x - PIPE_SPEED * dt }

/-- A pipe qualifies for scoring: not yet passed and trailing edge strictly
left of the bird position (claim-side formulation). -/
def crossesB (bx : ℚ) (p : Pipe) : Bool := !p.passed && decide (p.x + PIPE_W < bx)

/-- Marking a qualifying pipe as passed (claim-side formulation). -/
def markPass (bx : ℚ) (p : Pipe) : Pipe :=
  if crossesB bx p then { p with passed := true } else p

/-- A pipe stays on screen: trailing edge not yet past the removal margin
(claim-side formulation). -/
def keepP (p : Pipe) : Bool := !decide (p.x + PIPE_W < -40)

/-- The backward splice loop of the source is the order-preserving traversal:
every pipe is moved, every qualifying pipe is marked, the score increment is
the full count of qualifying pipes, and exactly the off-screen pipes are
dropped. -/
theorem stepPipes_eq (bx dt : ℚ) (l : List Pipe) :
    stepPipes bx dt l =
      (((l.map (movePipe dt)).map (markPass bx)).filter keepP,
       (l.map (movePipe dt)).countP (crossesB bx)) := by
  induction l with
  | nil => rfl
  | cons p rest ih =>
    by_cases hp : p.passed = true <;>
      by_cases hx : p.x - PIPE_SPEED * dt + PIPE_W < bx <;>
      by_cases hrm : p.x - PIPE_SPEED * dt + PIPE_W < -40 <;>
      simp [stepPipes, ih, movePipe, crossesB, markPass, keepP, List.filter_cons,
        hp, hx, hrm, Nat.add_comm]

/-- Claim C5: on a tick while running and alive, the score increases by
exactly the number of obstacles of the post-spawn list that, after the move,
are unpassed with trailing edge strictly left of the bird position, and the
resulting obstacle list is the moved list with exactly those obstacles
marked passed, with the off-screen ones removed — no qualifying obstacle is
skipped even when several cross on the same tick. -/
theorem c5_per_tick_scoring (s : State) (dt u : ℚ)
    (hr : s.running = true) (ha : s.bird.alive = true) :
    (tick s dt u).score =
      s.score + ((tickSpawned s dt u).2.map (movePipe dt)).countP (crossesB s.bird.x)
    ∧ (tick s dt u).pipes =
      (((tickSpawned s dt u).2.map (movePipe dt)).map (markPass s.bird.x)).filter keepP := by
  have hm : tickMoved s dt u =
      ((((tickSpawned s dt u).2.map (movePipe dt)).map (markPass s.bird.x)).filter keepP,
       ((tickSpawned s dt u).2.map (movePipe dt)).countP (crossesB s.bird.x)) := by
    rw [tickMoved, stepPipes_eq]
  constructor
  · simp only [tick, hr, ha, Bool.and_self, if_true]
    split <;> simp [hm]
  · simp only [tick, hr, ha, Bool.and_self, if_true]
    split <;> simp [hm]

/-- A concrete running state with one qualifying obstacle, for the C5 witness. -/
def c5s : State :=
  { bird := { x := 120, y := 240, vy := 0, radius := 18, rot := 0, alive := true },
    pipes := [⟨30, 100, 240, false⟩], spawnTimer := 0, running := true, score := 0,
    best := 0, width := 300, height := 480 }

/-- Claim C5, witness: on the concrete state c5s a zero-delta tick scores the
one qualifying obstacle and marks it passed. -/
theorem c5_per_tick_scoring_witness :
    (tick c5s 0 0).score = 1 ∧ (tick c5s 0 0).pipes = [⟨30, 100, 240, true⟩] := by
  have h := c5_per_tick_scoring c5s 0 0 rfl rfl
  constructor
  · rw [h.1]
    norm_num [c5s, tickSpawned, spawnStep, movePipe, crossesB, PIPE_W, PIPE_SPEED,
      PIPE_INTERVAL, List.countP_cons]
  · rw [h.2]
    norm_num [c5s, tickSpawned, spawnStep, movePipe, crossesB, markPass, keepP,
      PIPE_W, PIPE_SPEED, PIPE_INTERVAL, List.filter_cons]

/-- Claim C9: across the operations of the source, the best record is
monotone non-decreasing; it changes only on a tick that ends the session
(running transitions from true to false on a death), only when the final
score strictly exceeds it, and then it becomes that final score; flap and
retry never change it. -/
theorem c9_best_monotone (s : State) (dt u w h : ℚ) :
    s.best ≤ (tick s dt u).best
    ∧ ((tick s dt u).best ≠ s.best →
        ((tick s dt u).best = (tick s dt u).score ∧ s.best < (tick s dt u).score ∧
         s.running = true ∧ (tick s dt u).running = false ∧
         (tick s dt u).bird.alive = false))
    ∧ (doFlap s).best = s.best
    ∧ (resetSession s w h).best = s.best := by
  have flapcase : (doFlap s).best = s.best := by
    simp only [doFlap]
    split <;> split <;> rfl
  have key : (tick s dt u).best = s.best ∨
      ((tick s dt u).best = (tick s dt u).score ∧ s.best < (tick s dt u).score ∧
       s.running = true ∧ (tick s dt u).running = false ∧
       (tick s dt u).bird.alive = false) := by
    by_cases hra : (s.running && s.bird.alive) = true
    · by_cases hal : (pipeCollStep (tickMoved s dt u).1 (tickBird3 s dt)).alive = true
      · have ht : tick s dt u =
            { s with bird := pipeCollStep (tickMoved s dt u).1 (tickBird3 s dt),
                     pipes := (tickMoved s dt u).1,
                     spawnTimer := (tickSpawned s dt u).1,
                     score := s.score + (tickMoved s dt u).2 } := by
          simp [tick, hra, hal]
        rw [ht]
        exact Or.inl rfl
      · have ht : tick s dt u =
            { s with bird := pipeCollStep (tickMoved s dt u).1 (tickBird3 s dt),
                     pipes := (tickMoved s dt u).1,
                     spawnTimer := (tickSpawned s dt u).1,
                     score := s.score + (tickMoved s dt u).2,
                     running := false,
                     best := (endGame (s.score + (tickMoved s dt u).2) s.best).1 } := by
          simp [tick, hra, hal]
        rw [ht]
        by_cases hgt : s.score + (tickMoved s dt u).2 > s.best
        · refine Or.inr ⟨?_, ?_, ?_, rfl, ?_⟩
          · simp [endGame, hgt]
          · simpa using hgt
          · simp only [Bool.and_eq_true] at hra
            exact hra.1
          · simpa using hal
        · refine Or.inl ?_
          simp [endGame, hgt]
    · have ht : tick s dt u = s := by simp [tick, hra]
      rw [ht]
      exact Or.inl rfl
  refine ⟨?_, ?_, flapcase, rfl⟩
  · rcases key with hk | hk
    · exact le_of_eq hk.symm
    · rw [hk.1]
      exact le_of_lt hk.2.1
  · intro hne
    rcases key with hk | hk
    · exact absurd hk hne
    · exact hk

/-- A concrete running state that dies on the next tick with score 5 against
a best record of 3, for the C9 witness. -/
def c9s : State :=
  { bird := { x := 120, y := 500, vy := 0, radius := 18, rot := 0, alive := true },
    pipes := [], spawnTimer := 0, running := true, score := 5, best := 3,
    width := 300, height := 480 }

/-- Claim C9, witness: the session-end case of the monotonicity theorem
evaluated on the concrete dying state c9s, where the best record rises from
3 to the final score 5. -/
theorem c9_best_monotone_witness :
    (tick c9s 0 0).best = (tick c9s 0 0).score ∧ c9s.best < (tick c9s 0 0).score ∧
    (tick c9s 0 0).running = false := by
  have hb : (tick c9s 0 0).best = 5 := by
    norm_num [tick, c9s, tickMoved, tickSpawned, tickBird3, spawnStep, stepPipes,
      integrate, groundStep, ceilStep, pipeCollStep, groundHeight, endGame,
      rclamp, rmap, GRAVITY, PIPE_INTERVAL, MAX_ROT, MIN_ROT]
  have hne : (tick c9s 0 0).best ≠ c9s.best := by
    rw [hb]
    norm_num [c9s]
  have h := ((c9_best_monotone c9s 0 0 0 0).2.1) hne
  exact ⟨h.1, h.2.1, h.2.2.2.1⟩

@[simp] theorem integrate_x (b : Bird) (dt : ℚ) : (integrate b dt).x = b.x := rfl

@[simp] theorem integrate_radius (b : Bird) (dt : ℚ) : (integrate b dt).radius = b.radius := rfl

@[simp] theorem integrate_alive (b : Bird) (dt : ℚ) : (integrate b dt).alive = b.alive := rfl

@[simp] theorem groundStep_x (h : ℚ) (b : Bird) : (groundStep h b).x = b.x := by
  simp only [groundStep]
  split <;> rfl

@[simp] theorem groundStep_y (h : ℚ) (b : Bird) : (groundStep h b).y = b.y := by
  simp only [groundStep]
  split <;> rfl

@[simp] theorem groundStep_vy (h : ℚ) (b : Bird) : (groundStep h b).vy = b.vy := by
  simp only [groundStep]
  split <;> rfl

@[simp] theorem groundStep_radius (h : ℚ) (b : Bird) : (groundStep h b).radius = b.radius := by
  simp only [groundStep]
  split <;> rfl

theorem groundStep_alive (h : ℚ) (b : Bird) :
    (groundStep h b).alive = if b.y + b.radius > h - groundHeight h then false else b.alive := by
  simp only [groundStep]
  split <;> rfl

@[simp] theorem ceilStep_x (b : Bird) : (ceilStep b).x = b.x := by
  simp only [ceilStep]
  split <;> rfl

@[simp] theorem ceilStep_radius (b : Bird) : (ceilStep b).radius = b.radius := by
  simp only [ceilStep]
  split <;> rfl

@[simp] theorem ceilStep_alive (b : Bird) : (ceilStep b).alive = b.alive := by
  simp only [ceilStep]
  split <;> rfl

@[simp] theorem pipeCollStep_x (ps : List Pipe) (b : Bird) : (pipeCollStep ps b).x = b.x := by
  simp only [pipeCollStep]
  split <;> rfl

@[simp] theorem pipeCollStep_y (ps : List Pipe) (b : Bird) : (pipeCollStep ps b).y = b.y := by
  simp only [pipeCollStep]
  split <;> rfl

@[simp] theorem pipeCollStep_vy (ps : List Pipe) (b : Bird) : (pipeCollStep ps b).vy = b.vy := by
  simp only [pipeCollStep]
  split <;> rfl

@[simp] theorem pipeCollStep_radius (ps : List Pipe) (b : Bird) :
    (pipeCollStep ps b).radius = b.radius := by
  simp only [pipeCollStep]
  split <;> rfl

theorem pipeCollStep_alive_of_none (ps : List Pipe) (b : Bird)
    (h : ∀ p ∈ ps, collidePipe b.x b.y b.radius p = false) :
    pipeCollStep ps b = b := by
  have hany : ps.any (fun p => collidePipe b.x b.y b.radius p) = false := by
    simp only [List.any_eq_false]
    intro p hp
    simp [h p hp]
  simp [pipeCollStep, hany]

/-- Claim C3, counterexample: at the in-effect playfield height 2000 the
legal random draw u = 1692/1693 produces a pipe whose gap bottom lies inside
the ground band, because the spawn bound uses the fixed margin 120 while the
ground band is 240 pixels tall there. -/
theorem c3_cex :
    (0:ℚ) ≤ 1692/1693 ∧ (1692/1693 : ℚ) < 1 ∧
    (mkPipe 300 2000 (1692/1693)).bottom > 2000 - groundHeight 2000 := by
  norm_num [mkPipe, pipeTop, groundHeight, PIPE_GAP]

/-- Claim C3, amended: for every integral playfield height h with
308 ≤ h ≤ 1004 (so that maxTop ≥ minTop and the ground band is at most the
fixed 120-pixel spawn margin) and every random draw u ∈ [0,1), the spawned
gap-top offset is at least 48 and the gap bottom stays out of the ground
band. -/
theorem c3_spawn_bounds (w h u : ℚ) (hu0 : 0 ≤ u) (hu1 : u < 1)
    (hint : ((⌊h⌋ : ℤ) : ℚ) = h) (h1 : 308 ≤ h) (h2 : h ≤ 1004) :
    48 ≤ (mkPipe w h u).top ∧ (mkPipe w h u).bottom ≤ h - groundHeight h := by
  have hN : (0:ℚ) < (h - PIPE_GAP - 120) - 48 + 1 := by
    simp only [PIPE_GAP]
    linarith
  have hfl0 : (0:ℤ) ≤ ⌊u * ((h - PIPE_GAP - 120) - 48 + 1)⌋ :=
    Int.floor_nonneg.mpr (mul_nonneg hu0 (le_of_lt hN))
  have hflup : ⌊u * ((h - PIPE_GAP - 120) - 48 + 1)⌋ ≤ ⌊h⌋ - 308 := by
    have hlt : u * ((h - PIPE_GAP - 120) - 48 + 1) < ((⌊h⌋ - 307 : ℤ) : ℚ) := by
      have step : u * ((h - PIPE_GAP - 120) - 48 + 1) < 1 * ((h - PIPE_GAP - 120) - 48 + 1) :=
        mul_lt_mul_of_pos_right hu1 hN
      rw [one_mul] at step
      have : ((h - PIPE_GAP - 120) - 48 + 1) = ((⌊h⌋ - 307 : ℤ) : ℚ) := by
        push_cast
        rw [hint]
        simp only [PIPE_GAP]
        ring
      linarith [this ▸ step]
    have := Int.floor_lt.mpr hlt
    omega
  have hgh : groundHeight h ≤ 120 := by
    have hf : ⌊h * (12/100) + 1/2⌋ < 121 := by
      apply Int.floor_lt.mpr
      push_cast
      linarith
    have hf2 : ((⌊h * (12/100) + 1/2⌋ : ℤ) : ℚ) ≤ 120 := by
      have : ⌊h * (12/100) + 1/2⌋ ≤ 120 := by omega
      exact_mod_cast this
    simp only [groundHeight]
    apply max_le (by norm_num) hf2
  have htop : (mkPipe w h u).top = ((⌊u * ((h - PIPE_GAP - 120) - 48 + 1)⌋ : ℤ) : ℚ) + 48 := rfl
  have hbot : (mkPipe w h u).bottom =
      ((⌊u * ((h - PIPE_GAP - 120) - 48 + 1)⌋ : ℤ) : ℚ) + 48 + PIPE_GAP := rfl
  set K : ℤ := ⌊u * ((h - PIPE_GAP - 120) - 48 + 1)⌋ with hK
  constructor
  · rw [htop]
    have hc : (0:ℚ) ≤ (K : ℚ) := by exact_mod_cast hfl0
    linarith
  · rw [hbot]
    have hKq : (K : ℚ) ≤ h - 308 := by
      have h3 : (K : ℚ) ≤ ((⌊h⌋ - 308 : ℤ) : ℚ) := by exact_mod_cast hflup
      have h4 : ((⌊h⌋ - 308 : ℤ) : ℚ) = h - 308 := by
        push_cast
        rw [hint]
      linarith
    have hPG : PIPE_GAP = (140:ℚ) := rfl
    rw [hPG]
    linarith

/-- Claim C3, witness: the amended bounds evaluated at height 480 and draw 0. -/
theorem c3_spawn_bounds_witness :
    ((0:ℚ) ≤ 0 ∧ (0:ℚ) < 1 ∧ ((⌊(480:ℚ)⌋ : ℤ) : ℚ) = 480 ∧ (308:ℚ) ≤ 480 ∧ (480:ℚ) ≤ 1004) ∧
    (48 ≤ (mkPipe 300 480 0).top ∧ (mkPipe 300 480 0).bottom ≤ 480 - groundHeight 480) :=
  ⟨by norm_num,
   c3_spawn_bounds 300 480 0 (by norm_num) (by norm_num) (by norm_num) (by norm_num)
     (by norm_num)⟩

/-- Claim C6: while running and alive, provided no obstacle collision occurs
at the post-clamp position, the bird dies and the session transitions to
Ended on exactly the tick in which the post-integration y plus the radius
exceeds playfieldHeight minus groundHeight; with height 480 and radius 18
this is exactly body.y + 18 > 422. -/
theorem c6_ground_death (s : State) (dt u : ℚ)
    (hr : s.running = true) (ha : s.bird.alive = true)
    (hnc : ∀ p ∈ (tickMoved s dt u).1,
      collidePipe s.bird.x (tickBird3 s dt).y s.bird.radius p = false) :
    (((tick s dt u).bird.alive = false ∧ (tick s dt u).running = false) ↔
      (integrate s.bird dt).y + s.bird.radius > s.height - groundHeight s.height)
    ∧ (s.height = 480 → s.bird.radius = 18 →
        (((tick s dt u).bird.alive = false ∧ (tick s dt u).running = false) ↔
          (integrate s.bird dt).y + 18 > 422)) := by
  have hcoll : pipeCollStep (tickMoved s dt u).1 (tickBird3 s dt) = tickBird3 s dt := by
    apply pipeCollStep_alive_of_none
    intro p hp
    have hx : (tickBird3 s dt).x = s.bird.x := by simp [tickBird3]
    have hrad : (tickBird3 s dt).radius = s.bird.radius := by simp [tickBird3]
    rw [hx, hrad]
    exact hnc p hp
  have halive : (tickBird3 s dt).alive =
      (if (integrate s.bird dt).y + s.bird.radius > s.height - groundHeight s.height
       then false else true) := by
    simp only [tickBird3, ceilStep_alive, groundStep_alive, integrate_radius,
      integrate_alive, ha]
  have hmain : ((tick s dt u).bird.alive = false ∧ (tick s dt u).running = false) ↔
      (integrate s.bird dt).y + s.bird.radius > s.height - groundHeight s.height := by
    by_cases hg : (integrate s.bird dt).y + s.bird.radius > s.height - groundHeight s.height
    · have hb4 : (pipeCollStep (tickMoved s dt u).1 (tickBird3 s dt)).alive = false := by
        rw [hcoll, halive, if_pos hg]
      have ht1 : (tick s dt u).bird.alive = false := by
        simp [tick, hr, ha, hb4]
      have ht2 : (tick s dt u).running = false := by
        simp [tick, hr, ha, hb4]
      simp [ht1, ht2, hg]
    · have hb4 : (pipeCollStep (tickMoved s dt u).1 (tickBird3 s dt)).alive = true := by
        rw [hcoll, halive, if_neg hg]
      have ht1 : (tick s dt u).bird.alive = true := by
        simp [tick, hr, ha, hb4]
      simp [ht1, hg]
  refine ⟨hmain, fun h480 hr18 => ?_⟩
  have h422 : s.height - groundHeight s.height = 422 := by
    rw [h480]
    norm_num [groundHeight]
  rw [hr18, h422] at hmain
  exact hmain

/-- A concrete running state below the ground band, for the C6 witness. -/
def c6s : State :=
  { bird := { x := 120, y := 500, vy := 0, radius := 18, rot := 0, alive := true },
    pipes := [], spawnTimer := 0, running := true, score := 0, best := 0,
    width := 300, height := 480 }

/-- Claim C6, witness: at the concrete state c6s (post-integration
y = 500, so 500 + 18 > 422) the tick kills the bird and ends the session. -/
theorem c6_ground_death_witness :
    (tick c6s 0 0).bird.alive = false ∧ (tick c6s 0 0).running = false := by
  have hmv : (tickMoved c6s 0 0).1 = [] := by
    norm_num [tickMoved, tickSpawned, spawnStep, stepPipes, c6s, PIPE_INTERVAL]
  have hnc : ∀ p ∈ (tickMoved c6s 0 0).1,
      collidePipe c6s.bird.x (tickBird3 c6s 0).y c6s.bird.radius p = false := by
    rw [hmv]
    intro p hp
    exact absurd hp (List.not_mem_nil p)
  have h := (c6_ground_death c6s 0 0 rfl rfl hnc).1
  apply h.mpr
  norm_num [integrate, c6s, groundHeight, GRAVITY]

/-- Claim C7: while running and alive, if the integration step puts the
bird's top edge above the ceiling (y - radius < 0), the ground condition
does not hold and no obstacle collision occurs at the clamped position,
then after the tick y equals exactly the radius, vy equals exactly 0, the
bird is still alive, the session keeps running, and y - radius is not
negative at the end of the tick. -/
theorem c7_ceiling_clamp (s : State) (dt u : ℚ)
    (hr : s.running = true) (ha : s.bird.alive = true)
    (hclamp : (integrate s.bird dt).y - s.bird.radius < 0)
    (hg : ¬((integrate s.bird dt).y + s.bird.radius > s.height - groundHeight s.height))
    (hnc : ∀ p ∈ (tickMoved s dt u).1,
      collidePipe s.bird.x s.bird.radius s.bird.radius p = false) :
    (tick s dt u).bird.y = s.bird.radius ∧ (tick s dt u).bird.vy = 0 ∧
    (tick s dt u).bird.alive = true ∧ (tick s dt u).running = true ∧
    0 ≤ (tick s dt u).bird.y - (tick s dt u).bird.radius := by
  have hb2 : groundStep s.height (integrate s.bird dt) = integrate s.bird dt := by
    rw [groundStep, if_neg]
    exact hg
  have hclamp2 : (integrate s.bird dt).y - (integrate s.bird dt).radius < 0 := by
    rw [integrate_radius]
    exact hclamp
  have hb3 : tickBird3 s dt = { integrate s.bird dt with y := s.bird.radius, vy := 0 } := by
    rw [tickBird3, hb2, ceilStep, if_pos hclamp2]
    rfl
  have hcoll : pipeCollStep (tickMoved s dt u).1 (tickBird3 s dt) = tickBird3 s dt := by
    apply pipeCollStep_alive_of_none
    intro p hp
    have hx : (tickBird3 s dt).x = s.bird.x := by simp [tickBird3]
    have hy : (tickBird3 s dt).y = s.bird.radius := by rw [hb3]
    have hrad : (tickBird3 s dt).radius = s.bird.radius := by simp [tickBird3]
    rw [hx, hy, hrad]
    exact hnc p hp
  have halive3 : (tickBird3 s dt).alive = true := by
    rw [hb3]
    exact ha
  have ht : tick s dt u =
      { s with bird := tickBird3 s dt, pipes := (tickMoved s dt u).1,
               spawnTimer := (tickSpawned s dt u).1,
               score := s.score + (tickMoved s dt u).2 } := by
    simp only [tick, hr, ha, Bool.and_self, if_true, hcoll, halive3]
  refine ⟨?_, ?_, ?_, ?_, ?_⟩
  · rw [ht, hb3]
  · rw [ht, hb3]
  · rw [ht, hb3]
    exact ha
  · rw [ht]
    exact hr
  · rw [ht, hb3]
    simp

/-- A concrete running state just under the ceiling, for the C7 witness. -/
def c7s : State :=
  { bird := { x := 120, y := 10, vy := -350, radius := 18, rot := 0, alive := true },
    pipes := [], spawnTimer := 0, running := true, score := 0, best := 0,
    width := 300, height := 480 }

/-- Claim C7, witness: at the concrete state c7s (post-integration
y = 10 < 18) the tick clamps y to the radius, zeroes vy, and the session
stays running with the bird alive. -/
theorem c7_ceiling_clamp_witness :
    (tick c7s 0 0).bird.y = c7s.bird.radius ∧ (tick c7s 0 0).bird.vy = 0 ∧
    (tick c7s 0 0).bird.alive = true ∧ (tick c7s 0 0).running = true ∧
    0 ≤ (tick c7s 0 0).bird.y - (tick c7s 0 0).bird.radius := by
  have hmv : (tickMoved c7s 0 0).1 = [] := by
    norm_num [tickMoved, tickSpawned, spawnStep, stepPipes, c7s, PIPE_INTERVAL]
  have hnc : ∀ p ∈ (tickMoved c7s 0 0).1,
      collidePipe c7s.bird.x c7s.bird.radius c7s.bird.radius p = false := by
    rw [hmv]
    intro p hp
    exact absurd hp (List.not_mem_nil p)
  exact c7_ceiling_clamp c7s 0 0 rfl rfl
    (by norm_num [integrate, c7s, GRAVITY])
    (by norm_num [integrate, c7s, GRAVITY, groundHeight])
    hnc

@[simp] theorem groundStep_rot (h : ℚ) (b : Bird) : (groundStep h b).rot = b.rot := by
  simp only [groundStep]
  split <;> rfl

@[simp] theorem ceilStep_rot (b : Bird) : (ceilStep b).rot = b.rot := by
  simp only [ceilStep]
  split <;> rfl

@[simp] theorem pipeCollStep_rot (ps : List Pipe) (b : Bird) :
    (pipeCollStep ps b).rot = b.rot := by
  simp only [pipeCollStep]
  split <;> rfl

theorem integrate_rot (b : Bird) (dt : ℚ) :
    (integrate b dt).rot = b.rot +
      (rclamp (rmap (b.vy + GRAVITY * dt) (-400) 600 MAX_ROT MIN_ROT) MIN_ROT MAX_ROT - b.rot) *
        min 1 (dt * 8) := rfl

theorem rclamp_bounds (v a b : ℚ) (hab : a ≤ b) : a ≤ rclamp v a b ∧ rclamp v a b ≤ b :=
  ⟨le_max_left _ _, max_le hab (min_le_left _ _)⟩

theorem rot_step_bounds (rot target t : ℚ) (h1 : MIN_ROT ≤ rot) (h2 : rot ≤ MAX_ROT)
    (h3 : MIN_ROT ≤ target) (h4 : target ≤ MAX_ROT) (ht0 : 0 ≤ t) (ht1 : t ≤ 1) :
    MIN_ROT ≤ rot + (target - rot) * t ∧ rot + (target - rot) * t ≤ MAX_ROT := by
  constructor <;> nlinarith

theorem integrate_rot_bounds (b : Bird) (dt : ℚ) (hdt : 0 ≤ dt)
    (h1 : MIN_ROT ≤ b.rot) (h2 : b.rot ≤ MAX_ROT) :
    MIN_ROT ≤ (integrate b dt).rot ∧ (integrate b dt).rot ≤ MAX_ROT := by
  have htar := rclamp_bounds (rmap (b.vy + GRAVITY * dt) (-400) 600 MAX_ROT MIN_ROT)
    MIN_ROT MAX_ROT (by norm_num [MIN_ROT, MAX_ROT])
  have ht0 : (0:ℚ) ≤ min 1 (dt * 8) := le_min (by norm_num) (by linarith)
  have ht1 : min (1:ℚ) (dt * 8) ≤ 1 := min_le_left _ _
  rw [integrate_rot]
  exact rot_step_bounds b.rot _ _ h1 h2 htar.1 htar.2 ht0 ht1

theorem groundHeight_le_half (h : ℚ) (hh : 104 ≤ h) : groundHeight h ≤ h / 2 - 18 := by
  simp only [groundHeight]
  apply max_le
  · linarith
  · have h1 : ((⌊h * (12/100) + 1/2⌋ : ℤ) : ℚ) ≤ h * (12/100) + 1/2 := Int.floor_le _
    linarith

theorem spawnStep_fst_lt (timer : ℚ) (ps : List Pipe) (w h dt u : ℚ) :
    (spawnStep timer ps w h dt u).1 < PIPE_INTERVAL := by
  simp only [spawnStep]
  split
  · norm_num [PIPE_INTERVAL]
  · next hn => exact lt_of_not_ge hn

theorem pipeCollStep_eq_of_alive (ps : List Pipe) (b : Bird)
    (h : (pipeCollStep ps b).alive = true) :
    pipeCollStep ps b = b ∧ (∀ p ∈ ps, collidePipe b.x b.y b.radius p = false) ∧
    b.alive = true := by
  simp only [pipeCollStep] at h ⊢
  split at h
  · simp at h
  · next hany =>
    rw [if_neg hany]
    refine ⟨rfl, ?_, h⟩
    intro p hp
    cases hcp : collidePipe b.x b.y b.radius p
    · rfl
    · exact absurd (List.any_eq_true.mpr ⟨p, hp, hcp⟩) hany

theorem groundStep_eq_of_alive (h : ℚ) (b : Bird)
    (hal : (groundStep h b).alive = true) :
    groundStep h b = b ∧ ¬(b.y + b.radius > h - groundHeight h) := by
  simp only [groundStep] at hal ⊢
  split at hal
  · simp at hal
  · next hng => exact ⟨if_neg hng, hng⟩

theorem integrate_zero (b : Bird) : integrate b 0 = b := by
  have hmin : min (1:ℚ) (0 * 8) = 0 := by norm_num
  simp [integrate, hmin]

theorem movePipe_zero (p : Pipe) : movePipe 0 p = p := by
  simp [movePipe]

theorem tick_eq_of_alive (s : State) (dt u : ℚ) (hra : (s.running && s.bird.alive) = true)
    (hal : (pipeCollStep (tickMoved s dt u).1 (tickBird3 s dt)).alive = true) :
    tick s dt u =
      { s with bird := pipeCollStep (tickMoved s dt u).1 (tickBird3 s dt),
               pipes := (tickMoved s dt u).1,
               spawnTimer := (tickSpawned s dt u).1,
               score := s.score + (tickMoved s dt u).2 } := by
  simp [tick, hra, hal]

theorem tick_eq_of_dead (s : State) (dt u : ℚ) (hra : (s.running && s.bird.alive) = true)
    (hal : (pipeCollStep (tickMoved s dt u).1 (tickBird3 s dt)).alive = false) :
    tick s dt u =
      { s with bird := pipeCollStep (tickMoved s dt u).1 (tickBird3 s dt),
               pipes := (tickMoved s dt u).1,
               spawnTimer := (tickSpawned s dt u).1,
               score := s.score + (tickMoved s dt u).2,
               running := false,
               best := (endGame (s.score + (tickMoved s dt u).2) s.best).1 } := by
  simp [tick, hra, hal]

/-- The alive-state part of the reachability invariant: the bird is inside
the playfield (below the ceiling, above the ground band), every pipe that
has crossed the bird is marked passed, no pipe is past the removal margin,
and no pipe collides with the bird at its current position. -/
structure InvAlive (s : State) : Prop where
  hy1 : 18 ≤ s.bird.y
  hy2 : s.bird.y + 18 ≤ s.height - groundHeight s.height
  hpass : ∀ p ∈ s.pipes, p.x + PIPE_W < BIRD_X → p.passed = true
  hkeep : ∀ p ∈ s.pipes, ¬(p.x + PIPE_W < -40)
  hcoll : ∀ p ∈ s.pipes, collidePipe BIRD_X s.bird.y 18 p = false

/-- The reachability invariant: fixed bird geometry, spawn timer below the
interval, orientation within the clamp bounds, and — while the bird is
alive on a playfield of height at least 104 — the InvAlive conditions. -/
structure Inv (s : State) : Prop where
  hx : s.bird.x = BIRD_X
  hrad : s.bird.radius = 18
  htimer : s.spawnTimer < PIPE_INTERVAL
  hrot1 : MIN_ROT ≤ s.bird.rot
  hrot2 : s.bird.rot ≤ MAX_ROT
  halive : s.bird.alive = true → 104 ≤ s.height → InvAlive s

theorem inv_init (w h : ℚ) (b : ℕ) : Inv (initState w h b) := by
  refine ⟨rfl, rfl, by norm_num [initState, PIPE_INTERVAL],
    by norm_num [initState, MIN_ROT], by norm_num [initState, MAX_ROT], ?_⟩
  intro _ hh
  have hh104 : (104:ℚ) ≤ h := hh
  have hfl : ((⌊h / 2⌋ : ℤ) : ℚ) ≤ h / 2 := Int.floor_le _
  have hfge : (52:ℚ) ≤ ((⌊h / 2⌋ : ℤ) : ℚ) := by
    have : (52:ℤ) ≤ ⌊h / 2⌋ := Int.le_floor.mpr (by push_cast; linarith)
    exact_mod_cast this
  have hgh := groundHeight_le_half h hh104
  refine ⟨?_, ?_, ?_, ?_, ?_⟩
  · show (18:ℚ) ≤ ((⌊h / 2⌋ : ℤ) : ℚ)
    linarith
  · show ((⌊h / 2⌋ : ℤ) : ℚ) + 18 ≤ h - groundHeight h
    linarith
  · intro p hp
    exact absurd hp (List.not_mem_nil p)
  · intro p hp
    exact absurd hp (List.not_mem_nil p)
  · intro p hp
    exact absurd hp (List.not_mem_nil p)

theorem inv_start (s : State) (h : Inv s) : Inv (startGame s) :=
  ⟨h.hx, h.hrad, h.htimer, h.hrot1, h.hrot2, fun ha hh =>
    let i := h.halive ha hh
    ⟨i.hy1, i.hy2, i.hpass, i.hkeep, i.hcoll⟩⟩

theorem inv_ready (s : State) (h : Inv s) : Inv (readyGame s) :=
  ⟨h.hx, h.hrad, h.htimer, h.hrot1, h.hrot2, fun ha hh =>
    let i := h.halive ha hh
    ⟨i.hy1, i.hy2, i.hpass, i.hkeep, i.hcoll⟩⟩

theorem inv_retry (s : State) (w h : ℚ) : Inv (resetSession s w h) :=
  inv_init w h s.best

theorem inv_flap (s : State) (h : Inv s) : Inv (doFlap s) := by
  by_cases hal : s.bird.alive = true
  · have hd : doFlap s =
        { s with running := true,
                 bird := { s.bird with vy := FLAP_VY, rot := MAX_ROT } } ∨
        doFlap s = { s with bird := { s.bird with vy := FLAP_VY, rot := MAX_ROT } } := by
      by_cases hrun : s.running = true
      · right
        simp [doFlap, hrun, hal]
      · left
        have hrun' : s.running = false := by
          cases hb : s.running
          · rfl
          · exact absurd hb hrun
        simp [doFlap, hrun', hal]
    rcases hd with hd | hd <;> rw [hd] <;>
      exact ⟨h.hx, h.hrad, h.htimer, by norm_num [MIN_ROT, MAX_ROT],
        le_refl MAX_ROT, fun ha hh =>
          let i := h.halive hal hh
          ⟨i.hy1, i.hy2, i.hpass, i.hkeep, i.hcoll⟩⟩
  · have hal' : s.bird.alive = false := by
      cases hb : s.bird.alive
      · rfl
      · exact absurd hb hal
    have hd : doFlap s = s ∨ doFlap s = { s with running := true } := by
      by_cases hrun : s.running = true
      · left
        simp [doFlap, hrun, hal']
      · right
        have hrun' : s.running = false := by
          cases hb : s.running
          · rfl
          · exact absurd hb hrun
        simp [doFlap, hrun', hal']
    rcases hd with hd | hd <;> rw [hd]
    · exact h
    · exact ⟨h.hx, h.hrad, h.htimer, h.hrot1, h.hrot2, fun ha hh =>
        let i := h.halive ha hh
        ⟨i.hy1, i.hy2, i.hpass, i.hkeep, i.hcoll⟩⟩

theorem stepPipes_pass (bx dt : ℚ) (l : List Pipe) :
    ∀ p ∈ (stepPipes bx dt l).1, p.x + PIPE_W < bx → p.passed = true := by
  rw [stepPipes_eq]
  intro p hp hcross
  obtain ⟨q, hq, hqe⟩ := List.mem_map.mp (List.mem_filter.mp hp).1
  by_cases hc : crossesB bx q = true
  · rw [← hqe, markPass, if_pos hc]
  · have hqp : p = q := by rw [← hqe, markPass, if_neg hc]
    rw [hqp] at hcross ⊢
    simp [crossesB, hcross] at hc
    exact hc

theorem stepPipes_keep (bx dt : ℚ) (l : List Pipe) :
    ∀ p ∈ (stepPipes bx dt l).1, ¬(p.x + PIPE_W < -40) := by
  rw [stepPipes_eq]
  intro p hp
  have h2 := (List.mem_filter.mp hp).2
  simpa [keepP] using h2

theorem inv_tick (s : State) (dt u : ℚ) (hinv : Inv s) (hdt : 0 ≤ dt) : Inv (tick s dt u) := by
  by_cases hra : (s.running && s.bird.alive) = true
  case neg =>
    have ht : tick s dt u = s := by simp [tick, hra]
    rw [ht]
    exact hinv
  case pos =>
  have hsal : s.bird.alive = true := by
    simp only [Bool.and_eq_true] at hra
    exact hra.2
  have hb4x : (pipeCollStep (tickMoved s dt u).1 (tickBird3 s dt)).x = BIRD_X := by
    simp [tickBird3, hinv.hx]
  have hb4rad : (pipeCollStep (tickMoved s dt u).1 (tickBird3 s dt)).radius = 18 := by
    simp [tickBird3, hinv.hrad]
  have hrotb := integrate_rot_bounds s.bird dt hdt hinv.hrot1 hinv.hrot2
  have hb4rot : (pipeCollStep (tickMoved s dt u).1 (tickBird3 s dt)).rot =
      (integrate s.bird dt).rot := by
    simp [tickBird3]
  have htimer2 : (tickSpawned s dt u).1 < PIPE_INTERVAL := by
    rw [tickSpawned]
    exact spawnStep_fst_lt _ _ _ _ _ _
  have hx3 : (tickBird3 s dt).x = BIRD_X := by simp [tickBird3, hinv.hx]
  have hr3 : (tickBird3 s dt).radius = 18 := by simp [tickBird3, hinv.hrad]
  by_cases hal : (pipeCollStep (tickMoved s dt u).1 (tickBird3 s dt)).alive = true
  case pos =>
    rw [tick_eq_of_alive s dt u hra hal]
    refine ⟨hb4x, hb4rad, htimer2, ?_, ?_, ?_⟩
    · show MIN_ROT ≤ (pipeCollStep (tickMoved s dt u).1 (tickBird3 s dt)).rot
      rw [hb4rot]
      exact hrotb.1
    · show (pipeCollStep (tickMoved s dt u).1 (tickBird3 s dt)).rot ≤ MAX_ROT
      rw [hb4rot]
      exact hrotb.2
    · intro _ hh104
      obtain ⟨hpc_eq, hnocoll, hb3al⟩ := pipeCollStep_eq_of_alive _ _ hal
      have hb2al : (groundStep s.height (integrate s.bird dt)).alive = true := by
        have h3 := hb3al
        rw [tickBird3, ceilStep_alive] at h3
        exact h3
      obtain ⟨hg_eq, hng⟩ := groundStep_eq_of_alive s.height (integrate s.bird dt) hb2al
      have hb3eq : tickBird3 s dt = ceilStep (integrate s.bird dt) := by
        rw [tickBird3, hg_eq]
      push_neg at hng
      rw [integrate_radius, hinv.hrad] at hng
      have hgh := groundHeight_le_half s.height hh104
      have hy : (tickBird3 s dt).y = 18 ∨
          ((tickBird3 s dt).y = (integrate s.bird dt).y ∧ 18 ≤ (integrate s.bird dt).y) := by
        by_cases hcl : (integrate s.bird dt).y - (integrate s.bird dt).radius < 0
        · left
          rw [hb3eq, ceilStep, if_pos hcl]
          simp [hinv.hrad]
        · right
          push_neg at hcl
          rw [integrate_radius, hinv.hrad] at hcl
          constructor
          · rw [hb3eq, ceilStep, if_neg]
            push_neg
            rw [integrate_radius, hinv.hrad]
            linarith
          · linarith
      refine ⟨?_, ?_, ?_, ?_, ?_⟩
      · show 18 ≤ (pipeCollStep (tickMoved s dt u).1 (tickBird3 s dt)).y
        rw [hpc_eq]
        rcases hy with hy | hy
        · rw [hy]
        · rw [hy.1]
          exact hy.2
      · show (pipeCollStep (tickMoved s dt u).1 (tickBird3 s dt)).y + 18 ≤
          s.height - groundHeight s.height
        rw [hpc_eq]
        rcases hy with hy | hy
        · rw [hy]
          linarith
        · rw [hy.1]
          linarith
      · show ∀ p ∈ (tickMoved s dt u).1, p.x + PIPE_W < BIRD_X → p.passed = true
        rw [tickMoved, ← hinv.hx]
        exact stepPipes_pass s.bird.x dt _
      · show ∀ p ∈ (tickMoved s dt u).1, ¬(p.x + PIPE_W < -40)
        rw [tickMoved]
        exact stepPipes_keep s.bird.x dt _
      · show ∀ p ∈ (tickMoved s dt u).1,
          collidePipe BIRD_X (pipeCollStep (tickMoved s dt u).1 (tickBird3 s dt)).y 18 p = false
        rw [hpc_eq]
        intro p hp
        have hc := hnocoll p hp
        rw [hx3, hr3] at hc
        exact hc
  case neg =>
    have hal2 : (pipeCollStep (tickMoved s dt u).1 (tickBird3 s dt)).alive = false := by
      cases hbb : (pipeCollStep (tickMoved s dt u).1 (tickBird3 s dt)).alive
      · rfl
      · exact absurd hbb hal
    rw [tick_eq_of_dead s dt u hra hal2]
    refine ⟨hb4x, hb4rad, htimer2, ?_, ?_, ?_⟩
    · show MIN_ROT ≤ (pipeCollStep (tickMoved s dt u).1 (tickBird3 s dt)).rot
      rw [hb4rot]
      exact hrotb.1
    · show (pipeCollStep (tickMoved s dt u).1 (tickBird3 s dt)).rot ≤ MAX_ROT
      rw [hb4rot]
      exact hrotb.2
    · intro halv _
      have hcontr : (pipeCollStep (tickMoved s dt u).1 (tickBird3 s dt)).alive = true := halv
      rw [hal2] at hcontr
      exact Bool.noConfusion hcontr

/-- Every reachable session state satisfies the invariant Inv. -/
theorem reachable_inv (s : State) (h : Reachable s) : Inv s := by
  induction h with
  | init w h b => exact inv_init w h b
  | flap s _ ih => exact inv_flap s ih
  | step s dt u _ hdt0 _ _ _ ih => exact inv_tick s dt u ih hdt0
  | start s _ ih => exact inv_start s ih
  | ready s _ ih => exact inv_ready s ih
  | retry s w h _ => exact inv_retry s w h

/-- Claim C10: in every reachable session state the orientation angle lies
within [MIN_ROT, MAX_ROT] (angles in units of pi, so these are the source
bounds -pi/2.6 and pi/6): reset starts it at 0, flap sets it to MAX_ROT, and
each tick moves it by a convex combination toward a clamped target. -/
theorem c10_rot_within_bounds (s : State) (hs : Reachable s) :
    MIN_ROT ≤ s.bird.rot ∧ s.bird.rot ≤ MAX_ROT :=
  ⟨(reachable_inv s hs).hrot1, (reachable_inv s hs).hrot2⟩

/-- Claim C10, witness: the bounds evaluated on the concrete reachable state
produced by a reset at geometry 300 x 480. -/
theorem c10_rot_within_bounds_witness :
    MIN_ROT ≤ (initState 300 480 0).bird.rot ∧ (initState 300 480 0).bird.rot ≤ MAX_ROT :=
  c10_rot_within_bounds _ (Reachable.init 300 480 0)

/-- A concrete reachable running state on a degenerate 50-pixel-high
playfield whose reset position already lies inside the ground band. -/
def c4s : State :=
  { bird := { x := 120, y := 25, vy := -350, radius := 18, rot := 1/6, alive := true },
    pipes := [], spawnTimer := 0, running := true, score := 0, best := 0,
    width := 300, height := 50 }

/-- Claim C4, counterexample: c4s is reachable (reset at height 50, then the
starting flap), yet the dt = 0 tick changes the state — the bird dies on the
spot because its reset position is already below the ground line, so a
zero-delta tick is not an identity on every reachable state. -/
theorem c4_cex : Reachable c4s ∧ tick c4s 0 0 ≠ c4s := by
  have hd : c4s = doFlap (initState 300 50 0) := by
    norm_num [c4s, doFlap, initState, FLAP_VY, MAX_ROT, BIRD_X]
  constructor
  · rw [hd]
    exact Reachable.flap _ (Reachable.init 300 50 0)
  · intro heq
    have h1 : (tick c4s 0 0).bird.alive = false := by
      norm_num [tick, c4s, tickMoved, tickSpawned, tickBird3, spawnStep, stepPipes,
        integrate, groundStep, ceilStep, pipeCollStep, groundHeight, endGame,
        rclamp, rmap, GRAVITY, PIPE_INTERVAL, MAX_ROT, MIN_ROT]
    rw [heq] at h1
    exact Bool.noConfusion h1

/-- Claim C4, amended: on every reachable session state whose playfield
height is at least 104 (so that the reset position lies above the ground
band), one simulation tick with dt = 0 leaves the entire session state
unchanged — body, obstacle list, spawn timer, score, phase and best record. -/
theorem c4_tick_zero_id (s : State) (u : ℚ) (hs : Reachable s) (hh : 104 ≤ s.height) :
    tick s 0 u = s := by
  have hinv := reachable_inv s hs
  by_cases hra : (s.running && s.bird.alive) = true
  case neg => simp [tick, hra]
  case pos =>
  have hsal : s.bird.alive = true := by
    simp only [Bool.and_eq_true] at hra
    exact hra.2
  have ia := hinv.halive hsal hh
  have hint : integrate s.bird 0 = s.bird := integrate_zero s.bird
  have hsp : tickSpawned s 0 u = (s.spawnTimer, s.pipes) := by
    rw [tickSpawned]
    simp [spawnStep, not_le.mpr hinv.htimer]
  have hcr : ∀ p ∈ s.pipes, crossesB s.bird.x p = false := by
    intro p hp
    cases hpass : p.passed
    · have hnlt : ¬(p.x + PIPE_W < BIRD_X) := by
        intro hlt
        have hq := ia.hpass p hp hlt
        rw [hq] at hpass
        exact Bool.noConfusion hpass
      simp only [crossesB, hpass, Bool.not_false, Bool.true_and]
      rw [hinv.hx]
      exact decide_eq_false hnlt
    · simp [crossesB, hpass]
  have hmv : tickMoved s 0 u = (s.pipes, 0) := by
    rw [tickMoved, hsp]
    rw [stepPipes_eq]
    have h1 : s.pipes.map (movePipe 0) = s.pipes := by
      conv_rhs => rw [← List.map_id s.pipes]
      exact List.map_congr_left (fun p _ => movePipe_zero p)
    have h2 : s.pipes.map (markPass s.bird.x) = s.pipes := by
      conv_rhs => rw [← List.map_id s.pipes]
      refine List.map_congr_left (fun p hp => ?_)
      rw [markPass, if_neg (by simp [hcr p hp])]
      rfl
    have h3 : s.pipes.filter keepP = s.pipes := by
      rw [List.filter_eq_self]
      intro p hp
      simpa [keepP] using ia.hkeep p hp
    have h4 : s.pipes.countP (crossesB s.bird.x) = 0 := by
      rw [List.countP_eq_zero]
      intro p hp
      simp [hcr p hp]
    rw [h1, h2, h3, h4]
  have hg : groundStep s.height s.bird = s.bird := by
    have hcond : ¬(s.bird.y + s.bird.radius > s.height - groundHeight s.height) := by
      push_neg
      rw [hinv.hrad]
      exact ia.hy2
    rw [groundStep, if_neg hcond]
  have hc : ceilStep s.bird = s.bird := by
    have hcond : ¬(s.bird.y - s.bird.radius < 0) := by
      push_neg
      rw [hinv.hrad]
      linarith [ia.hy1]
    rw [ceilStep, if_neg hcond]
  have hb3 : tickBird3 s 0 = s.bird := by
    rw [tickBird3, hint, hg, hc]
  have hpc : pipeCollStep (tickMoved s 0 u).1 (tickBird3 s 0) = s.bird := by
    rw [hmv, hb3]
    apply pipeCollStep_alive_of_none
    intro p hp
    rw [hinv.hx, hinv.hrad]
    exact ia.hcoll p hp
  have hal : (pipeCollStep (tickMoved s 0 u).1 (tickBird3 s 0)).alive = true := by
    rw [hpc]
    exact hsal
  rw [tick_eq_of_alive s 0 u hra hal, hpc, hmv, hsp]
  simp

/-- Claim C4, witness: the amended identity evaluated on the concrete
reachable running state obtained by a reset at height 480 followed by the
starting flap. -/
theorem c4_tick_zero_id_witness :
    tick (doFlap (initState 300 480 0)) 0 0 = doFlap (initState 300 480 0) :=
  c4_tick_zero_id (doFlap (initState 300 480 0)) 0
    (Reachable.flap _ (Reachable.init 300 480 0))
    (by norm_num [doFlap, initState])

end Floppy
